import Mathlib

/-!
# Verification of the supply-chain gateway (JWT filter and reverse proxy)

Shallow embedding of the two gateway components of the repository:

* `JWTAuthenticationFilter.doFilterInternal`
  (src/ProxyServer/.../Security/JWTAuthenticationFilter.java), and
* `ProxyController.proxyToFastAPI`
  (src/ProxyServer/.../Controller/PredictionController.java) together with
  the `WebClientConfig.webClientBuilder` codec limit.

Java library operations used by that code (`String.replace`, `String.trim`,
`String.toLowerCase`, `String.startsWith`, `String.substring`,
`String.equalsIgnoreCase`, `HttpHeaders.add`) are modelled explicitly below,
character-list based, so that every definition is executable.
-/

namespace Gateway

/-- Model of Java `String.startsWith(p)` on character lists: `p` is a
character-by-character leading pattern of `s`. -/
def startsWithList : List Char → List Char → Bool
  | _, [] => true
  | [], _ :: _ => false
  | c :: cs, p :: ps => c == p && startsWithList cs ps

/-- Model of Java `String.startsWith`. -/
def javaStartsWith (s p : String) : Bool :=
  startsWithList s.data p.data

/-- Model of Java `String.substring(n)`: drop the first `n` characters. -/
def javaSubstringFrom (s : String) (n : Nat) : String :=
  ⟨s.data.drop n⟩

/-- Model of the per-character lowercase mapping used by Java
`String.toLowerCase` (ASCII range, sufficient for role strings). -/
def lowerChar (c : Char) : Char :=
  if 65 ≤ c.toNat ∧ c.toNat ≤ 90 then Char.ofNat (c.toNat + 32) else c

/-- Model of Java `String.toLowerCase()`. -/
def javaToLower (s : String) : String :=
  ⟨s.data.map lowerChar⟩

/-- Drop leading characters with code point `≤ 0x20`, as Java
`String.trim` does on the left end. -/
def trimLeftList : List Char → List Char
  | [] => []
  | c :: cs => if c.toNat ≤ 32 then trimLeftList cs else c :: cs

/-- Model of Java `String.trim()`: remove leading and trailing characters
with code point `≤ 0x20`. -/
def javaTrim (s : String) : String :=
  ⟨(trimLeftList (trimLeftList s.data).reverse).reverse⟩

/-- Model of Java `String.equalsIgnoreCase`. -/
def javaEqualsIgnoreCase (a b : String) : Bool :=
  a.data.map lowerChar == b.data.map lowerChar

/-- Java `println("..." + x)` renders a `null` reference as `"null"`. -/
def optShow : Option String → String
  | none => "null"
  | some s => s

/-- The parts of `HttpServletRequest` the filter and the proxy read:
HTTP method, header lookup (`getHeader`), request path (`getRequestURI`),
query string (`getQueryString`) and raw body bytes. -/
structure HttpRequest where
  method : String
  header : String → Option String
  requestURI : String
  queryString : Option String
  bodyBytes : List Nat

/-- The payload the JWT library hands back on successful verification:
`claims.getSubject()` and `claims.get("role", String.class)`, either of
which may be `null`. -/
structure JwtClaims where
  subject : Option String
  role : Option String
  deriving DecidableEq

/-- The `UsernamePasswordAuthenticationToken` the filter builds: principal
(possibly `null`) and granted-authority strings. -/
structure AuthToken where
  principal : Option String
  authorities : List String
  deriving DecidableEq

/-- Observable outcome of one `doFilterInternal` run: the authentication
placed into the `SecurityContextHolder` (if any), whether
`filterChain.doFilter` was invoked, whether an exception escaped the
filter, any status the filter itself wrote to the response, and the lines
it printed to stdout, in order. -/
structure FilterOutcome where
  auth : Option AuthToken
  chainCalled : Bool
  threw : Bool
  wroteStatus : Option Nat
  logs : List String
  deriving DecidableEq

/-- Outcome of the three early-return paths (OPTIONS pre-flight, missing
header, header without the `"Bearer "` tag): nothing happens except the
hand-off to the chain. -/
def passThroughOutcome : FilterOutcome :=
  { auth := none, chainCalled := true, threw := false
  , wroteStatus := none, logs := [] }

/-- Embedding of `JWTAuthenticationFilter.doFilterInternal`. The JWT
verification performed by `Jwts.parser().verifyWith(key)...` is abstracted
as `verify : String → Except String JwtClaims` (`Except.error msg` for any
verification failure; the catch block prints the exception message). -/
def doFilterInternal (verify : String → Except String JwtClaims)
    (req : HttpRequest) : FilterOutcome :=
  if javaEqualsIgnoreCase "OPTIONS" req.method then
    passThroughOutcome
  else
    match req.header "Authorization" with
    | none => passThroughOutcome
    | some authHeader =>
      if !javaStartsWith authHeader "Bearer " then
        passThroughOutcome
      else
        let token := javaSubstringFrom authHeader 7
        let tokenLog := "This is a Token" ++ token
        match verify token with
        | .error msg =>
          { auth := none, chainCalled := true, threw := false
          , wroteStatus := none
          , logs := [tokenLog, "JWT validation failed: " ++ msg] }
        | .ok claims =>
          let nameLog := "This is a userName" ++ optShow claims.subject
          match claims.role with
          | none =>
            { auth := none, chainCalled := true, threw := false
            , wroteStatus := none, logs := [tokenLog, nameLog] }
          | some role =>
            let authority := javaTrim (javaToLower role)
            let authentication : AuthToken :=
              { principal := claims.subject, authorities := [authority] }
            { auth := some authentication, chainCalled := true
            , threw := false, wroteStatus := none
            , logs := [tokenLog, nameLog
                      , "[[" ++ authority ++ "]]"
                      , "This is authentication" ++ optShow claims.subject] }

/-- Model of Java `String.replace(target, repl)` for a non-empty literal
target: every occurrence is replaced, scanning left to right,
non-overlapping. -/
def javaReplace (target repl : List Char) : List Char → List Char
  | [] => []
  | c :: cs =>
    if startsWithList (c :: cs) target && !target.isEmpty then
      repl ++ javaReplace target repl ((c :: cs).drop target.length)
    else
      c :: javaReplace target repl cs
  termination_by s => s.length
  decreasing_by
    · rename_i h
      simp only [Bool.and_eq_true, Bool.not_eq_eq_eq_not, Bool.not_true] at h
      obtain ⟨-, hne⟩ := h
      simp only [List.length_drop, List.length_cons]
      cases target with
      | nil => simp [List.isEmpty] at hne
      | cons t ts => simp only [List.length_cons]; omega
    · simp

/-- `request.getRequestURI().replace("/api/server", "/api")` — the path
rewrite of `ProxyController.proxyToFastAPI`. -/
def rewritePath (uri : String) : String :=
  ⟨javaReplace "/api/server".data "/api".data uri.data⟩

/-- The `"?" + queryString` suffix (empty when there is no query string). -/
def querySuffix : Option String → String
  | none => ""
  | some q => "?" ++ q

/-- The upstream URI the proxy targets: rewritten path plus query suffix. -/
def upstreamUri (uri : String) (q : Option String) : String :=
  rewritePath uri ++ querySuffix q

/-- Model of Spring `HttpHeaders.add(name, value)`: appends one
`(name, value)` entry; the value may be `null`. -/
def addHeader (hs : List (String × Option String)) (n : String)
    (v : Option String) : List (String × Option String) :=
  hs ++ [(n, v)]

/-- The outbound header construction of `proxyToFastAPI`: a fresh
`HttpHeaders`, then `add("Authorization", request.getHeader(...))` and
`add("Content-Type", request.getHeader(...))`, unconditionally. -/
def buildOutboundHeaders (lookup : String → Option String) :
    List (String × Option String) :=
  addHeader (addHeader [] "Authorization" (lookup "Authorization"))
    "Content-Type" (lookup "Content-Type")

/-- The single upstream HTTP call the proxy issues: method, URI, headers
and body handed to the `WebClient`. -/
structure OutboundCall where
  method : String
  uri : String
  headers : List (String × Option String)
  bodyBytes : List Nat

/-- What `proxyToFastAPI` sends upstream, assembled from the request. -/
def outboundCall (req : HttpRequest) : OutboundCall :=
  { method := req.method
  , uri := upstreamUri req.requestURI req.queryString
  , headers := buildOutboundHeaders req.header
  , bodyBytes := req.bodyBytes }

/-- How the upstream service behaves on the call: it answers with a status
and body, or no HTTP response ever arrives (connection refused, reset,
timeout). -/
inductive UpstreamBehavior where
  | respond (status : Nat) (bodyBytes : List Nat)
  | unreachable
  deriving DecidableEq

/-- The signal `retrieve().toEntity(byte[].class)` delivers to the rest of
the reactive pipeline. -/
inductive ExchangeOutcome where
  /-- A successful `ResponseEntity<byte[]>`. -/
  | entity (status : Nat) (bodyBytes : List Nat)
  /-- `WebClientResponseException`: the upstream answered with a 4xx/5xx
  status; the exception carries that status and the response body. -/
  | responseException (status : Nat) (bodyBytes : List Nat)
  /-- `WebClientRequestException`: no HTTP response was received. -/
  | requestException
  /-- `DataBufferLimitException`: the response body exceeded the codec's
  configured `maxInMemorySize`. -/
  | bufferLimitExceeded
  deriving DecidableEq

/-- `WebClientConfig.webClientBuilder` configures
`defaultCodecs().maxInMemorySize(16*1024*1024)` on the shared builder. -/
def webClientMaxInMemorySize : Nat := 16 * 1024 * 1024

/-- Model of `retrieve().toEntity(byte[].class)` under the codec limit:
a body larger than `limit` aborts buffering with
`DataBufferLimitException`; otherwise a 4xx/5xx status becomes a
`WebClientResponseException` and any other status a `ResponseEntity`. -/
def runExchange (limit : Nat) : UpstreamBehavior → ExchangeOutcome
  | .unreachable => .requestException
  | .respond status b =>
    if limit < b.length then .bufferLimitExceeded
    else if 400 ≤ status then .responseException status b
    else .entity status b

/-- What the `Mono` returned by `proxyToFastAPI` finally produces: a
`ResponseEntity` for the caller, or an error signal that leaves the
controller unhandled (to be turned into a framework-level error
elsewhere). -/
inductive ProxyResult where
  | response (status : Nat) (bodyBytes : List Nat)
  | propagatedError (e : ExchangeOutcome)
  deriving DecidableEq

/-- The `onErrorResume(WebClientResponseException.class, ...)` stage: a
response exception is resumed as `ResponseEntity.status(e.getStatusCode())
.body(e.getResponseBodyAsByteArray())`; every other signal passes through
unhandled. -/
def handleExchange : ExchangeOutcome → ProxyResult
  | .entity status b => .response status b
  | .responseException status b => .response status b
  | .requestException => .propagatedError .requestException
  | .bufferLimitExceeded => .propagatedError .bufferLimitExceeded

/-- Embedding of `ProxyController.proxyToFastAPI`: one upstream exchange
on the assembled outbound call, then the error-resume stage. `upstream`
maps the outbound call to the upstream's behavior; it is applied exactly
once (the pipeline has no retry). -/
def proxyToFastAPI (req : HttpRequest)
    (upstream : OutboundCall → UpstreamBehavior) : ProxyResult :=
  handleExchange (runExchange webClientMaxInMemorySize
    (upstream (outboundCall req)))

/-- `true` exactly when the proxy itself hands a `ResponseEntity` back to
the caller. -/
def producesResponse : ProxyResult → Bool
  | .response _ _ => true
  | .propagatedError _ => false

/-- `occursIn target s` is `true` iff `target` occurs as a contiguous
substring of `s` (at any position). -/
def occursIn (target : List Char) : List Char → Bool
  | [] => target.isEmpty
  | c :: cs => startsWithList (c :: cs) target || occursIn target cs

/-! ### Concrete sample inputs used by witnesses and counterexamples -/

/-- A verifier that rejects every token (wrong signing key / tampered
payload). -/
def verifyRejectAll : String → Except String JwtClaims :=
  fun _ => .error "JWT signature does not match"

/-- A verifier that accepts exactly the token `"tok123"`, yielding subject
`alice` with role claim `" ADMIN "`. -/
def verifyTok123 : String → Except String JwtClaims :=
  fun t =>
    if t == "tok123" then .ok { subject := some "alice", role := some " ADMIN " }
    else .error "JWT signature does not match"

/-- A GET request to the proxied path carrying `Authorization: Bearer
tok123` and no other header. -/
def reqBearer : HttpRequest :=
  { method := "GET"
  , header := fun n => if n == "Authorization" then some "Bearer tok123" else none
  , requestURI := "/api/server/inventory"
  , queryString := none
  , bodyBytes := [] }

/-- A pre-flight OPTIONS request with no headers. -/
def reqOptions : HttpRequest :=
  { method := "OPTIONS"
  , header := fun _ => none
  , requestURI := "/api/server/orders"
  , queryString := none
  , bodyBytes := [] }

/-- A bare GET request to the proxied path with no headers at all. -/
def reqPlain : HttpRequest :=
  { method := "GET"
  , header := fun _ => none
  , requestURI := "/api/server/dashboard"
  , queryString := none
  , bodyBytes := [] }

/-- An upstream response body one byte larger than the configured codec
limit. -/
def oversizedBody : List Nat :=
  List.replicate (webClientMaxInMemorySize + 1) 0

end Gateway

/-! ## Helper lemmas -/

namespace Gateway

theorem startsWithList_append (t s : List Char) :
    startsWithList (t ++ s) t = true := by
  induction t with
  | nil => simp [startsWithList]
  | cons c cs ih => simp [startsWithList, ih]

/-- A `javaReplace` scan beginning exactly at an occurrence of the target
replaces that occurrence and resumes after it. -/
theorem javaReplace_append_match (t r s : List Char) (h : t ≠ []) :
    javaReplace t r (t ++ s) = r ++ javaReplace t r s := by
  cases t with
  | nil => exact absurd rfl h
  | cons t0 ts =>
    have hcond : (startsWithList (t0 :: (ts ++ s)) (t0 :: ts)
        && !(t0 :: ts).isEmpty) = true := by
      simp only [Bool.and_eq_true, Bool.not_eq_true', List.isEmpty_cons]
      exact ⟨startsWithList_append (t0 :: ts) s, trivial⟩
    conv_lhs => rw [javaReplace.eq_def]
    simp only [List.cons_append]
    rw [if_pos hcond, show t0 :: (ts ++ s) = (t0 :: ts) ++ s from rfl,
      List.drop_left]

/-- `javaReplace` is the identity on strings in which the target does not
occur. -/
theorem javaReplace_of_not_occurs (t r s : List Char)
    (h : occursIn t s = false) : javaReplace t r s = s := by
  induction s with
  | nil => rw [javaReplace.eq_def]
  | cons c cs ih =>
    simp only [occursIn, Bool.or_eq_false_iff] at h
    rw [javaReplace.eq_def]
    simp only [h.1, Bool.false_and, Bool.false_eq_true, if_false]
    rw [ih h.2]

/-- `lowerChar` maps the trimmable range (code points `≤ 0x20`) to itself
and everything else outside it. -/
theorem lowerChar_toNat_le (c : Char) :
    (lowerChar c).toNat ≤ 32 ↔ c.toNat ≤ 32 := by
  unfold lowerChar
  split
  · rename_i h
    have hv : c.toNat + 32 < 55296 ∨
        57343 < c.toNat + 32 ∧ c.toNat + 32 < 1114112 := Or.inl (by omega)
    have h1 : (Char.ofNat (c.toNat + 32)).toNat = c.toNat + 32 := by
      simp only [Char.ofNat, dif_pos hv]
      simp [Char.ofNatAux, Char.toNat, UInt32.toNat, BitVec.toNat_ofNatLt]
    rw [h1]
    omega
  · exact Iff.rfl

/-- Left-trimming commutes with per-character lowercasing. -/
theorem trimLeftList_map_lower (l : List Char) :
    trimLeftList (l.map lowerChar) = (trimLeftList l).map lowerChar := by
  induction l with
  | nil => rfl
  | cons c cs ih =>
    simp only [List.map_cons, trimLeftList]
    by_cases hc : c.toNat ≤ 32
    · rw [if_pos ((lowerChar_toNat_le c).mpr hc), if_pos hc, ih]
    · rw [if_neg (fun hh => hc ((lowerChar_toNat_le c).mp hh)), if_neg hc,
        List.map_cons]

/-- Java `trim` and `toLowerCase` commute, so the code's
`role.toLowerCase().trim()` computes the spec's `lowercase(trim(role))`. -/
theorem javaTrim_javaToLower (s : String) :
    javaTrim (javaToLower s) = javaToLower (javaTrim s) := by
  apply String.ext
  show (trimLeftList (trimLeftList (s.data.map lowerChar)).reverse).reverse
    = ((trimLeftList (trimLeftList s.data).reverse).reverse).map lowerChar
  rw [trimLeftList_map_lower, ← List.map_reverse, trimLeftList_map_lower,
    List.map_reverse]

end Gateway

/-! ## Claim theorems -/

namespace Gateway

/-- C1 (counterexample): the code's path rewrite is
`String.replace("/api/server", "/api")`, replacing every occurrence, so on
`/api/server/x/api/server/y` — which does begin with `/api/server/` — the
computed upstream path is not `/api/` plus the path with its
`/api/server/` prefix removed: the later occurrence of `/api/server` is
also rewritten. -/
theorem proxy_rewrite_replaces_all_occurrences_cex :
    javaStartsWith "/api/server/x/api/server/y" "/api/server/" = true ∧
    upstreamUri "/api/server/x/api/server/y" none = "/api/x/api/y" ∧
    (upstreamUri "/api/server/x/api/server/y" none ==
      "/api/" ++ javaSubstringFrom "/api/server/x/api/server/y" 12) = false := by
  refine ⟨by decide, ?_, ?_⟩
  · simp [upstreamUri, rewritePath, javaReplace, startsWithList, querySuffix]
  · simp [upstreamUri, rewritePath, javaReplace, startsWithList, querySuffix,
      javaSubstringFrom]

/-- C1 (amended): for a path `/api/server/<rest>` in which the substring
`/api/server` occurs only as the leading prefix, the upstream URI is
`/api/<rest>` with the query string appended unchanged; in general the
rewrite replaces every occurrence of `/api/server`, not only the
prefix. -/
theorem proxy_rewrite_single_occurrence (rest : List Char) (q : Option String)
    (h : occursIn ("/api/server".data) ('/' :: rest) = false) :
    upstreamUri ⟨"/api/server".data ++ '/' :: rest⟩ q
      = ⟨"/api/".data ++ rest⟩ ++ querySuffix q := by
  apply String.ext
  show javaReplace "/api/server".data "/api".data
      ("/api/server".data ++ '/' :: rest) ++ (querySuffix q).data
    = ("/api/".data ++ rest) ++ (querySuffix q).data
  rw [javaReplace_append_match _ _ _ (by decide),
    javaReplace_of_not_occurs _ _ _ h]
  simp

/-- Witness for `proxy_rewrite_single_occurrence` at
`/api/server/users/login?x=1`. -/
theorem proxy_rewrite_single_occurrence_witness :
    occursIn ("/api/server".data) ('/' :: "users/login".data) = false ∧
    upstreamUri ⟨"/api/server".data ++ '/' :: "users/login".data⟩ (some "x=1")
      = ⟨"/api/".data ++ "users/login".data⟩ ++ querySuffix (some "x=1") :=
  ⟨by decide, proxy_rewrite_single_occurrence "users/login".data (some "x=1")
    (by decide)⟩

/-- C2: whenever verification of the bearer token succeeds and the claim
set carries a role claim `r`, the filter stores a single-authority
authentication whose principal is the token's subject and whose sole
authority is `lowercase(trim(r))` (the code computes
`r.toLowerCase().trim()`, which is the same string). -/
theorem jwt_role_authority_normalized
    (verify : String → Except String JwtClaims) (req : HttpRequest)
    (a : String) (claims : JwtClaims) (r : String)
    (hopt : javaEqualsIgnoreCase "OPTIONS" req.method = false)
    (hheader : req.header "Authorization" = some a)
    (hbearer : javaStartsWith a "Bearer " = true)
    (hverify : verify (javaSubstringFrom a 7) = .ok claims)
    (hrole : claims.role = some r) :
    (doFilterInternal verify req).auth =
      some { principal := claims.subject
           , authorities := [javaToLower (javaTrim r)] } := by
  simp only [doFilterInternal, hopt, Bool.false_eq_true, if_false, hheader,
    hbearer, Bool.not_true, hverify, hrole]
  simp [javaTrim_javaToLower]

/-- Witness for `jwt_role_authority_normalized`: a valid token for subject
`alice` with role claim `" ADMIN "` yields the single authority
`"admin"`. -/
theorem jwt_role_authority_normalized_witness :
    (doFilterInternal verifyTok123 reqBearer).auth =
      some { principal := some "alice", authorities := ["admin"] } := by
  rw [jwt_role_authority_normalized verifyTok123 reqBearer "Bearer tok123"
    { subject := some "alice", role := some " ADMIN " } " ADMIN "
    (by decide) (by decide) (by decide) rfl rfl]
  decide

/-- C3: when the bearer token fails verification, the filter swallows the
error: the security context stays unauthenticated, the chain is still
invoked, no exception escapes, and the filter writes no status (no 401) to
the response. -/
theorem jwt_invalid_token_swallowed
    (verify : String → Except String JwtClaims) (req : HttpRequest)
    (a : String) (msg : String)
    (hheader : req.header "Authorization" = some a)
    (hbearer : javaStartsWith a "Bearer " = true)
    (hverify : verify (javaSubstringFrom a 7) = .error msg) :
    (doFilterInternal verify req).auth = none ∧
    (doFilterInternal verify req).chainCalled = true ∧
    (doFilterInternal verify req).threw = false ∧
    (doFilterInternal verify req).wroteStatus = none := by
  simp only [doFilterInternal]
  by_cases hopt : javaEqualsIgnoreCase "OPTIONS" req.method
  · simp [hopt, passThroughOutcome]
  · simp [hopt, hheader, hbearer, hverify]

/-- Witness for `jwt_invalid_token_swallowed` on a request whose token is
rejected by the verifier. -/
theorem jwt_invalid_token_swallowed_witness :
    (doFilterInternal verifyRejectAll reqBearer).auth = none ∧
    (doFilterInternal verifyRejectAll reqBearer).chainCalled = true ∧
    (doFilterInternal verifyRejectAll reqBearer).threw = false ∧
    (doFilterInternal verifyRejectAll reqBearer).wroteStatus = none :=
  jwt_invalid_token_swallowed verifyRejectAll reqBearer "Bearer tok123"
    "JWT signature does not match" (by decide) (by decide) rfl

/-- C4: when the upstream answers with an HTTP error status (4xx/5xx)
whose body fits in the codec buffer, the proxy returns exactly the
upstream status and exactly the upstream body to the caller; the single
upstream exchange is never retried. -/
theorem proxy_upstream_error_passthrough (req : HttpRequest)
    (upstream : OutboundCall -> UpstreamBehavior) (s : Nat) (b : List Nat)
    (hresp : upstream (outboundCall req) = .respond s b)
    (hstatus : 400 <= s)
    (hsize : b.length <= webClientMaxInMemorySize) :
    proxyToFastAPI req upstream = .response s b := by
  simp only [proxyToFastAPI, hresp, runExchange]
  rw [if_neg (by omega), if_pos hstatus]
  rfl

/-- Witness for `proxy_upstream_error_passthrough`: an upstream 404 with
body `[120]` is relayed as-is. -/
theorem proxy_upstream_error_passthrough_witness :
    proxyToFastAPI reqPlain (fun _ => .respond 404 [120])
      = .response 404 [120] :=
  proxy_upstream_error_passthrough reqPlain (fun _ => .respond 404 [120])
    404 [120] rfl (by decide) (by decide)

/-- C5 (counterexample): the filter prints the raw bearer token to stdout
(`System.out.println("This is a Token" + token)`) before verification, so
on a request carrying `Bearer tok123` the log output contains the raw
token `tok123` — contradicting the claim that the token value is never
logged. -/
theorem jwt_raw_token_logged_cex :
    (doFilterInternal verifyRejectAll reqBearer).logs =
      ["This is a Tokentok123",
       "JWT validation failed: JWT signature does not match"] := by
  decide

/-- C5 (amended): besides mutating the authentication context the filter
also prints diagnostics to stdout; for every non-OPTIONS request with a
`Bearer` header those diagnostics include the raw token value (it still
writes nothing to the response). -/
theorem jwt_raw_token_logged
    (verify : String -> Except String JwtClaims) (req : HttpRequest)
    (a : String)
    (hopt : javaEqualsIgnoreCase "OPTIONS" req.method = false)
    (hheader : req.header "Authorization" = some a)
    (hbearer : javaStartsWith a "Bearer " = true) :
    (doFilterInternal verify req).wroteStatus = none ∧
    ("This is a Token" ++ javaSubstringFrom a 7) ∈
      (doFilterInternal verify req).logs := by
  simp only [doFilterInternal, hopt, Bool.false_eq_true, if_false, hheader,
    hbearer, Bool.not_true]
  cases hv : verify (javaSubstringFrom a 7) with
  | error msg => simp
  | ok claims =>
    cases hr : claims.role with
    | none => simp [hr]
    | some r => simp [hr]

/-- Witness for `jwt_raw_token_logged` on the `Bearer tok123` request. -/
theorem jwt_raw_token_logged_witness :
    (doFilterInternal verifyRejectAll reqBearer).wroteStatus = none ∧
    ("This is a Token" ++ javaSubstringFrom "Bearer tok123" 7) ∈
      (doFilterInternal verifyRejectAll reqBearer).logs :=
  jwt_raw_token_logged verifyRejectAll reqBearer "Bearer tok123"
    (by decide) (by decide) (by decide)

/-- C6: on an OPTIONS request, a request without an `Authorization`
header, or one whose header does not start with `"Bearer "`, the filter
does nothing at all: no authentication, no thrown exception, no log
output, no response status — only the hand-off to the chain. -/
theorem jwt_passthrough_no_action
    (verify : String -> Except String JwtClaims) (req : HttpRequest)
    (h : javaEqualsIgnoreCase "OPTIONS" req.method = true ∨
      req.header "Authorization" = none ∨
      (∃ a, req.header "Authorization" = some a ∧
        javaStartsWith a "Bearer " = false)) :
    doFilterInternal verify req = passThroughOutcome := by
  simp only [doFilterInternal]
  rcases h with h | h | ⟨a, ha, hb⟩
  · simp [h]
  · by_cases hopt : javaEqualsIgnoreCase "OPTIONS" req.method <;>
      simp [hopt, h]
  · by_cases hopt : javaEqualsIgnoreCase "OPTIONS" req.method <;>
      simp [hopt, ha, hb]

/-- Witness for `jwt_passthrough_no_action` on a pre-flight OPTIONS
request. -/
theorem jwt_passthrough_no_action_witness :
    doFilterInternal verifyRejectAll reqOptions = passThroughOutcome :=
  jwt_passthrough_no_action verifyRejectAll reqOptions (Or.inl (by decide))

/-- C7: the names of the headers handed to the upstream call are exactly
the allow-list `Authorization`, `Content-Type` — whatever other headers
the inbound request carries, none of them appears in the outbound
header set. -/
theorem proxy_header_allowlist (lookup : String -> Option String) :
    (buildOutboundHeaders lookup).map Prod.fst
      = ["Authorization", "Content-Type"] := by
  simp [buildOutboundHeaders, addHeader]

/-- C8 (counterexample): when the upstream is unreachable the proxy does
not itself produce any response (no 502/504-equivalent): its error-resume
stage handles only HTTP status errors, so the request error leaves the
controller as an unhandled error signal. -/
theorem proxy_unreachable_no_gateway_response_cex :
    producesResponse (proxyToFastAPI reqPlain (fun _ => .unreachable))
        = false ∧
    proxyToFastAPI reqPlain (fun _ => .unreachable)
        = .propagatedError .requestException := by
  exact ⟨rfl, rfl⟩

/-- C8 (amended): an unreachable/timed-out upstream exchange is not
mapped by the forwarder to any gateway response; the
`WebClientRequestException` signal propagates out of the controller
unhandled (only `WebClientResponseException` is resumed), leaving the
error to the surrounding framework. -/
theorem proxy_unreachable_error_propagates (req : HttpRequest)
    (upstream : OutboundCall -> UpstreamBehavior)
    (h : upstream (outboundCall req) = .unreachable) :
    proxyToFastAPI req upstream = .propagatedError .requestException ∧
    producesResponse (proxyToFastAPI req upstream) = false := by
  simp [proxyToFastAPI, h, runExchange, handleExchange, producesResponse]

/-- Witness for `proxy_unreachable_error_propagates`. -/
theorem proxy_unreachable_error_propagates_witness :
    proxyToFastAPI reqBearer (fun _ => .unreachable)
      = .propagatedError .requestException ∧
    producesResponse (proxyToFastAPI reqBearer (fun _ => .unreachable))
      = false :=
  proxy_unreachable_error_propagates reqBearer (fun _ => .unreachable) rfl

/-- C9: the shared `WebClient` builder fixes a 16 MiB in-memory buffering
limit for decoded bodies, and an upstream response whose body exceeds it
fails with the distinct `DataBufferLimitException` signal — it is not
relayed to the caller as an upstream status-plus-body response. -/
theorem proxy_buffer_limit_distinct (req : HttpRequest)
    (upstream : OutboundCall -> UpstreamBehavior) (s : Nat) (b : List Nat)
    (hresp : upstream (outboundCall req) = .respond s b)
    (hsize : webClientMaxInMemorySize < b.length) :
    proxyToFastAPI req upstream = .propagatedError .bufferLimitExceeded ∧
    producesResponse (proxyToFastAPI req upstream) = false := by
  simp only [proxyToFastAPI, hresp, runExchange, if_pos hsize]
  exact ⟨rfl, rfl⟩

/-- Witness for `proxy_buffer_limit_distinct`: a 200 response one byte
over the 16 MiB limit. -/
theorem proxy_buffer_limit_distinct_witness :
    proxyToFastAPI reqPlain (fun _ => .respond 200 oversizedBody)
      = .propagatedError .bufferLimitExceeded ∧
    producesResponse (proxyToFastAPI reqPlain
      (fun _ => .respond 200 oversizedBody)) = false :=
  proxy_buffer_limit_distinct reqPlain (fun _ => .respond 200 oversizedBody)
    200 oversizedBody rfl (by simp [oversizedBody])

/-- C10: the allow-list copy is not guarded on header presence: a request
with no `Authorization` (resp. `Content-Type`) header still gets an
outbound entry for that name with a null value. -/
theorem proxy_null_header_entry_added (lookup : String -> Option String)
    (hauth : lookup "Authorization" = none)
    (hct : lookup "Content-Type" = none) :
    ("Authorization", (none : Option String)) ∈ buildOutboundHeaders lookup ∧
    ("Content-Type", (none : Option String)) ∈ buildOutboundHeaders lookup := by
  simp [buildOutboundHeaders, addHeader, hauth, hct]

/-- Witness for `proxy_null_header_entry_added` with a header-less
request. -/
theorem proxy_null_header_entry_added_witness :
    ("Authorization", (none : Option String))
        ∈ buildOutboundHeaders (fun _ => none) ∧
    ("Content-Type", (none : Option String))
        ∈ buildOutboundHeaders (fun _ => none) :=
  proxy_null_header_entry_added (fun _ => none) rfl rfl

end Gateway

